import Mathlib

set_option autoImplicit false

/-!
Shallow embedding of the decode engine of the `itf`/`apalache-itf` trace
decoder: the generic `Value` tree, the serde-style reflective deserializer
(`src/serde-itf/src/de.rs`) and the code generated by the derive macros
(`src/apalache-itf-derive/src/lib.rs`), together with theorems checking the
natural-language specification against these definitions.
-/

namespace Itf

/-- The generic value tree (`Value` in `src/serde-itf/src/value.rs`, as used
throughout `de.rs`).  `Number` carries a 64-bit signed integer in the source;
we model it as `Int` and make every 64-bit range check explicit where the
source performs one.  `BigInt` is arbitrary precision.  The associative
containers are modelled as association lists (the source's `Map` type,
iterated in its storage order). -/
inductive Value : Type where
  | bool (b : Bool)
  | number (n : Int)
  | bigint (n : Int)
  | string (s : String)
  | list (xs : List Value)
  | tuple (xs : List Value)
  | set (xs : List Value)
  | map (xs : List (Value × Value))
  | record (xs : List (String × Value))
  | unserializable

/-- serde's `Unexpected` classification of an input value, as produced by
`Value::unexpected` in `de.rs` and by the visitor default methods. -/
inductive Unexpected : Type where
  | bool (b : Bool)
  | signed (n : Int)
  | str (s : String)
  | seq
  | map
  | unit
  | unitVariant
  | enum
  | other (s : String)
deriving DecidableEq

/-- `Value::unexpected` from `de.rs`. -/
def Value.unexpected : Value → Unexpected
  | .bool b => .bool b
  | .number n => .signed n
  | .string s => .str s
  | .list _ => .seq
  | .map _ => .map
  | .record _ => .other "record"
  | .bigint _ => .other "bigint"
  | .tuple _ => .other "tuple"
  | .set _ => .other "set"
  | .unserializable => .other "unserializable"

/-- The error type of `serde-itf` (`Error` in `de.rs`).  `BigIntErr`/`NumberErr`
stand for the source's `BigInt(BigInt, &'static str)` and
`Number(i64, &'static str)` variants ("cannot convert {value} to {expected}",
i.e. the numeric-range errors); note that `de.rs` declares both but never
constructs either. `TypeMismatch` carries the two `Type` descriptors; no claim
inspects them, so they are modelled as strings. -/
inductive Error : Type where
  | Custom (msg : String)
  | TypeMismatch (expected actual : String)
  | BigIntErr (value : Int) (expected : String)
  | UnsupportedType (ty : String)
  | NumberErr (value : Int) (expected : String)
deriving DecidableEq

/-- Rendering of serde's `Unexpected` (its `Display` impl), used when the
deserializer builds `invalid type` / `invalid value` messages through
`Error::custom`. -/
def Unexpected.render : Unexpected → String
  | .bool b => "boolean `" ++ (if b then "true" else "false") ++ "`"
  | .signed n => "integer `" ++ toString n ++ "`"
  | .str s => "string " ++ "\"" ++ s ++ "\""
  | .seq => "sequence"
  | .map => "map"
  | .unit => "unit"
  | .unitVariant => "unit variant"
  | .enum => "enum"
  | .other s => s

/-- serde's `Error::invalid_type(unexp, exp)`, which reaches `de.rs`'s `Error`
through `Error::custom` (the only constructor `SerdeError` provides). -/
def invalidType (u : Unexpected) (exp : String) : Error :=
  .Custom ("invalid type: " ++ u.render ++ ", expected " ++ exp)

/-- serde's `Error::invalid_value(unexp, exp)`, via `Error::custom`. -/
def invalidValue (u : Unexpected) (exp : String) : Error :=
  .Custom ("invalid value: " ++ u.render ++ ", expected " ++ exp)

/-- serde's `Error::invalid_length(len, exp)`, via `Error::custom`. -/
def invalidLength (len : Nat) (exp : String) : Error :=
  .Custom ("invalid length " ++ toString len ++ ", expected " ++ exp)

/-- serde's `Error::unknown_variant(name, expected)`, via `Error::custom`
(raised by derived `Deserialize` impls when an enum tag matches no variant). -/
def unknownVariantErr (name : String) : Error :=
  .Custom ("unknown variant `" ++ name ++ "`")

/-- The outcome of running a piece of Rust decoding code: a normal `Ok`,
a normal `Err`, or a process abort (`panic!` / `.unwrap()` on a failed
conversion).  The source's `Result` has only the first two; `panic` records
the aborts that `de.rs` can perform via `unwrap()`. -/
inductive Outcome (α : Type) : Type where
  | ok (a : α)
  | err (e : Error)
  | panic
deriving DecidableEq

def Outcome.bind {α β : Type} : Outcome α → (α → Outcome β) → Outcome β
  | .ok a, f => f a
  | .err e, _ => .err e
  | .panic, _ => .panic

instance : Monad Outcome where
  pure := .ok
  bind := Outcome.bind

/-- The visitor side of serde's reflective protocol, restricted to the entry
points `de.rs` actually invokes.  `expecting` is the visitor's `Expected`
rendering.  `visitSeq` receives the raw element list: `visit_list`,
`visit_tuple` and `visit_set` all wrap the elements in a `SeqDeserializer`
and hand it to `visit_seq` (never calling `end()`).  `visitRecordEntries` /
`visitMapEntries` likewise model `visit_map` over a `MapDeserializer`.
`visitEnum` receives the variant name and optional payload carried by
`EnumDeserializer` (the name having passed unchanged through
`variant_seed`'s string deserializer).  Defaults are serde's `Visitor`
default methods: reject with `invalid_type`. -/
structure Visitor (α : Type) : Type where
  expecting : String
  visitBool : Bool → Outcome α := fun b => .err (invalidType (.bool b) expecting)
  visitI64 : Int → Outcome α := fun n => .err (invalidType (.signed n) expecting)
  visitString : String → Outcome α := fun s => .err (invalidType (.str s) expecting)
  visitUnit : Outcome α := .err (invalidType .unit expecting)
  visitSeq : List Value → Outcome α := fun _ => .err (invalidType .seq expecting)
  visitMapEntries : List (Value × Value) → Outcome α :=
    fun _ => .err (invalidType .map expecting)
  visitRecordEntries : List (String × Value) → Outcome α :=
    fun _ => .err (invalidType .map expecting)
  visitEnum : String → Option Value → Outcome α :=
    fun _ _ => .err (invalidType .enum expecting)

namespace De

/-- `i64` bounds used by `BigInt::to_i64` in `deserialize_any`. -/
def i64Min : Int := -(2 ^ 63)

def i64Max : Int := 2 ^ 63 - 1

/-- `deserialize_any` from `de.rs`.  `Value::BigInt(v)` runs
`v.to_i64().unwrap()`: a big integer outside 64-bit signed range makes the
`unwrap` abort the process, modelled as `.panic`. -/
def deserialize_any {α : Type} (vis : Visitor α) : Value → Outcome α
  | .bool b => vis.visitBool b
  | .number n => vis.visitI64 n
  | .string s => vis.visitString s
  | .bigint n =>
      if i64Min ≤ n ∧ n ≤ i64Max then vis.visitI64 n else .panic
  | .list xs => vis.visitSeq xs
  | .tuple xs => vis.visitSeq xs
  | .set xs => vis.visitSeq xs
  | .record xs => vis.visitRecordEntries xs
  | .map xs => vis.visitMapEntries xs
  | .unserializable => .err (.UnsupportedType "unserializable")

/-- `deserialize_ignored_any` from `de.rs`: drop the value, `visit_unit`. -/
def deserialize_ignored_any {α : Type} (vis : Visitor α) (v : Value) : Outcome α :=
  match v with
  | _ => vis.visitUnit

/-- `deserialize_bool` from `de.rs`. -/
def deserialize_bool {α : Type} (vis : Visitor α) : Value → Outcome α
  | .bool b => vis.visitBool b
  | v => .err (invalidType v.unexpected vis.expecting)

/-- `deserialize_string` from `de.rs`. -/
def deserialize_string {α : Type} (vis : Visitor α) : Value → Outcome α
  | .string s => vis.visitString s
  | v => .err (invalidType v.unexpected vis.expecting)

/-- `deserialize_unit` from `de.rs`: unconditionally
`Err(self.invalid_type(&visitor))` — no `Value` variant decodes as unit. -/
def deserialize_unit {α : Type} (vis : Visitor α) (v : Value) : Outcome α :=
  .err (invalidType v.unexpected vis.expecting)

/-- `deserialize_seq` from `de.rs`: accepts `List` and `Tuple` only. -/
def deserialize_seq {α : Type} (vis : Visitor α) : Value → Outcome α
  | .list xs => vis.visitSeq xs
  | .tuple xs => vis.visitSeq xs
  | v => .err (invalidType v.unexpected vis.expecting)

/-- The body the `deserialize_number!` macro expands to for a target width
with range `[lo, hi]`: `Value::Number(n) => visitor.visit(ty::try_from(n)
.unwrap())` — the `unwrap` aborts the process when `n` is out of range —
and `_ => Err(self.invalid_type(&visitor))` otherwise.  The visit call is
the matched width's `visit_*` with the converted value; composed here with
serde's primitive visitor for the same width (`visit_* = Ok`, `expecting` =
the type name), giving the end-to-end `decode::<ty>` on a `Value`. -/
def decodeNumber (lo hi : Int) (tyName : String) : Value → Outcome Int
  | .number n => if lo ≤ n ∧ n ≤ hi then .ok n else .panic
  | v => .err (invalidType v.unexpected tyName)

def decode_i8 : Value → Outcome Int := decodeNumber (-(2 ^ 7)) (2 ^ 7 - 1) "i8"
def decode_i16 : Value → Outcome Int := decodeNumber (-(2 ^ 15)) (2 ^ 15 - 1) "i16"
def decode_i32 : Value → Outcome Int := decodeNumber (-(2 ^ 31)) (2 ^ 31 - 1) "i32"
def decode_i64 : Value → Outcome Int := decodeNumber (-(2 ^ 63)) (2 ^ 63 - 1) "i64"
/-- `i128::try_from(n: i64)` always succeeds, so the bounds are i64's. -/
def decode_i128 : Value → Outcome Int := decodeNumber (-(2 ^ 63)) (2 ^ 63 - 1) "i128"
def decode_u8 : Value → Outcome Int := decodeNumber 0 (2 ^ 8 - 1) "u8"
def decode_u16 : Value → Outcome Int := decodeNumber 0 (2 ^ 16 - 1) "u16"
def decode_u32 : Value → Outcome Int := decodeNumber 0 (2 ^ 32 - 1) "u32"
def decode_u64 : Value → Outcome Int := decodeNumber 0 (2 ^ 63 - 1) "u64"
/-- `u128::try_from(n: i64)` fails only on negatives; max is i64's max. -/
def decode_u128 : Value → Outcome Int := decodeNumber 0 (2 ^ 63 - 1) "u128"

/-- `deserialize_enum` from `de.rs`: a `Record` must carry exactly one entry
(`variant`, payload); zero or two-plus entries are
`invalid_value(Unexpected::Map, "map with a single key")`; a `String` selects
a variant with no payload; anything else is
`invalid_type(.., "string or map")`.  The resulting
`EnumDeserializer { variant, value }` reaches the visitor's `visit_enum`;
`variant_seed` passes the variant string through unchanged, so `visit_enum`
is modelled as receiving the pair directly. -/
def deserialize_enum {α : Type} (vis : Visitor α) : Value → Outcome α
  | .record entries =>
      match entries with
      | [] => .err (invalidValue .map "map with a single key")
      | [(variant, value)] => vis.visitEnum variant (some value)
      | _ => .err (invalidValue .map "map with a single key")
  | .string variant => vis.visitEnum variant none
  | other => .err (invalidType other.unexpected "string or map")

/-- serde's visitor for the unit type `()` (its `expecting` is "unit");
only `visit_unit` succeeds, and `de.rs`'s `deserialize_unit` never calls it. -/
def unitVisitor : Visitor Unit := { expecting := "unit", visitUnit := .ok () }

/-- End-to-end decode of `()` from a `Value`:
`Deserialize::deserialize(value)` for the unit type calls
`deserialize_unit`, which rejects every `Value` variant. -/
def decode_unit (v : Value) : Outcome Unit := deserialize_unit unitVisitor v

/-- `VariantDeserializer::unit_variant` from `de.rs`: with a payload, the
payload is decoded as the unit type; with none (the bare-`String` enum form),
succeed. -/
def unit_variant : Option Value → Outcome Unit
  | some value => decode_unit value
  | none => .ok ()

/-- `VariantDeserializer::tuple_variant` from `de.rs`: only a `Tuple` payload
is accepted (the `List` arm is commented out in the source); an empty tuple
goes to `visit_unit`, a non-empty one to `visit_seq` via `visit_tuple`; any
other payload is `invalid_type(.., "tuple variant")`, and a missing payload
is `invalid_type(Unexpected::UnitVariant, "tuple variant")`. -/
def tuple_variant {α : Type} (value : Option Value) (vis : Visitor α) : Outcome α :=
  match value with
  | some (.tuple xs) => if xs.isEmpty then vis.visitUnit else vis.visitSeq xs
  | some other => .err (invalidType other.unexpected "tuple variant")
  | none => .err (invalidType .unitVariant "tuple variant")

/-- `VariantDeserializer::struct_variant` from `de.rs`: a `Record` payload
goes to the visitor via `visit_record`; anything else is rejected. -/
def struct_variant {α : Type} (value : Option Value) (vis : Visitor α) : Outcome α :=
  match value with
  | some (.record v) => vis.visitRecordEntries v
  | some other => .err (invalidType other.unexpected "struct variant")
  | none => .err (invalidType .unitVariant "struct variant")

/-- serde's visitor for `IgnoredAny`: every `visit_*` succeeds.  Used by
clients through `deserialize_ignored_any`. -/
def ignoredAnyVisitor : Visitor Unit :=
  { expecting := "anything at all"
    visitBool := fun _ => .ok ()
    visitI64 := fun _ => .ok ()
    visitString := fun _ => .ok ()
    visitUnit := .ok ()
    visitSeq := fun _ => .ok ()
    visitMapEntries := fun _ => .ok ()
    visitRecordEntries := fun _ => .ok ()
    visitEnum := fun _ _ => .ok () }

/-- End-to-end "ignore and skip" decode (`IgnoredAny` through
`deserialize_ignored_any`). -/
def decode_ignored (v : Value) : Outcome Unit :=
  deserialize_ignored_any ignoredAnyVisitor v

/-- The serde-derive visitor generated for a two-field positional enum
variant `Foo(i64, i64)`: `visit_seq` pulls two elements from the sequence
(each decoded as `i64`) and pairs them; a shorter sequence is an
invalid-length error.  Trailing elements are left unconsumed — `de.rs`
never calls `SeqDeserializer::end`, so they are silently ignored. -/
def pairI64Visitor : Visitor (Int × Int) :=
  { expecting := "tuple variant"
    visitSeq := fun xs =>
      match xs with
      | a :: b :: _ => do
          let x ← decode_i64 a
          let y ← decode_i64 b
          pure (x, y)
      | xs => .err (invalidLength xs.length "tuple variant Foo with 2 elements") }

/-- End-to-end reflective decode of the externally-tagged enum
`enum E { Foo(i64, i64) }`: the derived `visit_enum` matches the variant
name and dispatches to `tuple_variant`; an unknown name is serde's
`unknown_variant` error raised by the derived identifier seed. -/
def decodeFooPairEnum (v : Value) : Outcome (Int × Int) :=
  deserialize_enum
    { expecting := "enum E"
      visitEnum := fun variant payload =>
        if variant = "Foo" then tuple_variant payload pairI64Visitor
        else .err (unknownVariantErr variant) }
    v

end De

namespace Derive

/-- The error type of the `apalache-itf` crate (`DecodeError`), as
constructed by the code the derive macros in
`src/apalache-itf-derive/src/lib.rs` emit, with the constructors named in
the spec's error taxonomy (§7). -/
inductive DecodeError : Type where
  | Custom (msg : String)
  | TypeMismatch (expected actual : String)
  | NumericRangeError (value : Int) (target : String)
  | UnsupportedType (name : String)
  | FieldNotFound (name : String)
  | UnknownTag (tagFieldName : String)
  | UnknownVariant (tagValue : String)
  | InvalidType (expected : String)
deriving DecidableEq

/-- One declared field or variant together with its parsed `#[itf(...)]`
attributes: the declared identifier and the optional `rename = "..."`
override (`ItfAttributes.rename`). -/
structure FieldSpec : Type where
  name : String
  rename : Option String
deriving DecidableEq

/-- Name resolution used throughout the derive macro:
`attrs.rename.unwrap_or_else(|| name.to_string())`. -/
def resolvedName (f : FieldSpec) : String := f.rename.getD f.name

/-- `HashMap::remove(key)` on a string-keyed map modelled as an association
list with unique keys: returns the removed value (if any) and the map
without that entry. -/
def removeKey (k : String) : List (String × Value) → Option Value × List (String × Value)
  | [] => (none, [])
  | (k', v) :: rest =>
      if k' = k then (some v, rest)
      else
        let (found, rest') := removeKey k rest
        (found, (k', v) :: rest')

/-- The field-extraction code `derive_struct_named` emits, one step per
declared field in declaration order: resolve the field's key
(`resolvedName`), `map.remove(key)`, a missing key is
`DecodeError::FieldNotFound(key)`, a present value is decoded by the
field's type and the remaining fields continue on the shrunken map.
Entries left over at the end (unrecognized keys) are simply dropped. -/
def decodeFields {β : Type} (fields : List (FieldSpec × (Value → Except DecodeError β)))
    (m : List (String × Value)) : Except DecodeError (List β) :=
  match fields with
  | [] => .ok []
  | (f, dec) :: rest =>
      match removeKey (resolvedName f) m with
      | (none, _) => .error (.FieldNotFound (resolvedName f))
      | (some v, m') => do
          let b ← dec v
          let bs ← decodeFields rest m'
          pure (b :: bs)

/-- The decoder `unit_enum` emits for an all-unit-variant enumeration: one
match arm `Value::String(s) if s == name_i => Ok(variant_i)` per variant
(with `name_i` the variant's resolved name), and a final
`_ => Err(DecodeError::InvalidType("string"))` catch-all that takes every
non-`String` value and every `String` matching no arm. -/
def decodeUnitEnum {α : Type} (variants : List (FieldSpec × α)) : Value → Except DecodeError α
  | .string s =>
      match variants.find? (fun p => resolvedName p.1 = s) with
      | some p => .ok p.2
      | none => .error (.InvalidType "string")
  | _ => .error (.InvalidType "string")

/-- Modelled from the spec: the `DecodeItfValue` impl for
`HashMap<String, Value>` used by the generated enum/struct decoders lives in
the `apalache-itf` crate, which is not under `src/`; §4.4 states the source
must be a `Record` on the code-generation path.  A `Record` yields its
entries, anything else is a type error. -/
def decodeRecordMap : Value → Except DecodeError (List (String × Value))
  | .record entries => .ok entries
  | _ => .error (.InvalidType "record")

/-- Modelled from the spec: the `DecodeItfValue` impl for `String`
(`apalache-itf` crate, not under `src/`); §4.2: "String: requires
`String`". -/
def decodeItfString : Value → Except DecodeError String
  | .string s => .ok s
  | _ => .error (.InvalidType "string")

/-- The decoder `named_enum` emits for an all-named-fields enumeration:
decode the source into a `HashMap<String, Value>` (requires `Record`),
`record.remove(tag).ok_or(DecodeError::UnknownTag(tag))`, decode the
removed tag value as `String`, then match the tag string against each
variant's resolved name — the matching variant's fields are extracted by
`derive_struct_named` from the same, now tag-stripped record, and a
non-matching tag is `DecodeError::UnknownVariant(tag)`.  Each variant is
modelled as its resolved-name spec plus its field-extraction continuation
on the tag-stripped record. -/
def decodeNamedEnum {α : Type} (tag : String)
    (variants : List (FieldSpec × (List (String × Value) → Except DecodeError α)))
    (value : Value) : Except DecodeError α := do
  let record ← decodeRecordMap value
  let (tagVal, record') := removeKey tag record
  let tagStr ← match tagVal with
    | none => Except.error (DecodeError.UnknownTag tag)
    | some v => decodeItfString v
  match variants.find? (fun p => resolvedName p.1 = tagStr) with
  | some p => p.2 record'
  | none => .error (.UnknownVariant tagStr)

end Derive

namespace De

/-- Element-wise decoding of a raw element list, left to right, the first
failure (or abort) terminating the traversal — the behavior of driving one
element decoder over a `SeqDeserializer`'s elements. -/
def decodeElems {α : Type} (d : Value → Outcome α) : List Value → Outcome (List α)
  | [] => .ok []
  | x :: xs => do
      let a ← d x
      let as ← decodeElems d xs
      pure (a :: as)

/-- Modelled from the spec: the `Deserialize` realization for the set
collection `Set<T>` (`crate::set::Set`, not under `src/`); §4.2: "Set<T>:
requires `Set`; decode each element independently; no post-decode
re-deduplication".  Elements are decoded left to right in the raw set's
iteration order by the element type's decoder, the first failure aborting;
every successfully decoded element is retained as produced. -/
def decodeSet {α : Type} (elemDecode : Value → Outcome α) : Value → Outcome (List α)
  | .set xs => decodeElems elemDecode xs
  | v => .err (invalidType v.unexpected "a set")

end De

/-- A concrete all-unit enumeration `enum { A, B }` with no renames, each
variant represented by its index, for instantiating the unit-enum decoder. -/
def unitEnumAB : List (Derive.FieldSpec × Nat) :=
  [(⟨"A", none⟩, 0), (⟨"B", none⟩, 1)]

/-- A concrete all-named-fields enumeration `enum { A { x: Value } }` for the
internally-tagged decoder: variant `A` (no rename) extracts its single field
`x` from the tag-stripped record, the field value kept as-is. -/
def namedEnumA :
    List (Derive.FieldSpec × (List (String × Value) → Except Derive.DecodeError (List Value))) :=
  [(⟨"A", none⟩, Derive.decodeFields [(⟨"x", none⟩, fun v => .ok v)])]

end Itf

namespace Itf

/-- Claim C1: the claim states that decoding an out-of-range `Number` into a
fixed-width integer yields `NumericRangeError(value, typeName)` and never
aborts; the code instead runs `ty::try_from(n).unwrap()`, which aborts the
process.  This theorem evaluates the code at the failing inputs: every
width's decoder panics on an out-of-range `Number` (and in particular
`Number(200)` into `i8` aborts rather than returning the error the `Error`
type even declares for this purpose), while in-range numbers decode. -/
theorem itf_C1_number_overflow_aborts :
    De.decode_i8 (Value.number 200) = Outcome.panic
      ∧ De.decode_i8 (Value.number 200) ≠ .err (Error.NumberErr 200 "i8")
      ∧ De.decode_i8 (Value.number 5) = .ok 5
      ∧ De.decode_i16 (Value.number (2 ^ 15)) = .panic
      ∧ De.decode_i32 (Value.number (2 ^ 31)) = .panic
      ∧ De.decode_u8 (Value.number 256) = .panic
      ∧ De.decode_u8 (Value.number (-1)) = .panic
      ∧ De.decode_u16 (Value.number (2 ^ 16)) = .panic
      ∧ De.decode_u32 (Value.number (2 ^ 32)) = .panic
      ∧ De.decode_u64 (Value.number (-1)) = .panic
      ∧ De.decode_u128 (Value.number (-1)) = .panic := by
  refine ⟨by decide, by decide, by decide, ?_, ?_, by decide, by decide, ?_, ?_, by decide,
    by decide⟩ <;> decide

/-- Claim C2 counterexample: decoding `String("C")` into the unit enumeration
`{A, B}` (no renames) yields `InvalidType("string")` — the generated match's
catch-all — not `UnknownVariant("C")` as claimed. -/
theorem itf_C2_cex :
    Derive.decodeUnitEnum unitEnumAB (Value.string "C")
        = .error (.InvalidType "string")
      ∧ Derive.decodeUnitEnum unitEnumAB (Value.string "C")
        ≠ .error (.UnknownVariant "C") := by
  constructor
  · rfl
  · intro h
    rw [show Derive.decodeUnitEnum unitEnumAB (Value.string "C")
        = .error (.InvalidType "string") from rfl] at h
    cases h

/-- Claim C2 (amended): for a unit-only enumeration, decoding a `String`
matching no configured variant name yields `InvalidType("string")` — the
same error as for every non-`String` source — and decoding `Number(1)`
likewise yields `InvalidType("string")`. -/
theorem itf_C2_unit_enum_errors :
    (∀ (α : Type) (variants : List (Derive.FieldSpec × α)) (s : String),
        variants.find? (fun p => Derive.resolvedName p.1 = s) = none →
        Derive.decodeUnitEnum variants (Value.string s) = .error (.InvalidType "string"))
      ∧ Derive.decodeUnitEnum unitEnumAB (Value.string "C") = .error (.InvalidType "string")
      ∧ Derive.decodeUnitEnum unitEnumAB (Value.number 1) = .error (.InvalidType "string")
      ∧ (∀ (α : Type) (variants : List (Derive.FieldSpec × α)),
          (∀ b, Derive.decodeUnitEnum variants (Value.bool b) = .error (.InvalidType "string"))
          ∧ (∀ n, Derive.decodeUnitEnum variants (Value.number n) = .error (.InvalidType "string"))
          ∧ (∀ n, Derive.decodeUnitEnum variants (Value.bigint n) = .error (.InvalidType "string"))
          ∧ (∀ xs, Derive.decodeUnitEnum variants (Value.list xs) = .error (.InvalidType "string"))
          ∧ (∀ xs, Derive.decodeUnitEnum variants (Value.tuple xs) = .error (.InvalidType "string"))
          ∧ (∀ xs, Derive.decodeUnitEnum variants (Value.set xs) = .error (.InvalidType "string"))
          ∧ (∀ xs, Derive.decodeUnitEnum variants (Value.map xs) = .error (.InvalidType "string"))
          ∧ (∀ xs, Derive.decodeUnitEnum variants (Value.record xs) = .error (.InvalidType "string"))
          ∧ Derive.decodeUnitEnum variants Value.unserializable
              = .error (.InvalidType "string")) := by
  refine ⟨?_, rfl, rfl, ?_⟩
  · intro α variants s h
    simp only [Derive.decodeUnitEnum, h]
  · intro α variants
    exact ⟨fun _ => rfl, fun _ => rfl, fun _ => rfl, fun _ => rfl, fun _ => rfl,
      fun _ => rfl, fun _ => rfl, fun _ => rfl, rfl⟩

/-- Claim C2 witness: the amended no-match case instantiated at the concrete
enumeration `{A, B}` and the string `"C"`. -/
theorem itf_C2_witness :
    Derive.decodeUnitEnum unitEnumAB (Value.string "C") = .error (.InvalidType "string") :=
  itf_C2_unit_enum_errors.1 Nat unitEnumAB "C" (by decide)

/-- Claim C3 counterexample: on the reflective externally-tagged path, the
payload `Record{"Foo": List[Number(1), Number(2)]}` does NOT decode the
two-field positional variant `Foo`: the `List` arm of `tuple_variant` is
commented out in the source, so a `List` payload is rejected with an
invalid-type error. -/
theorem itf_C3_cex :
    De.decodeFooPairEnum (Value.record [("Foo", Value.list [Value.number 1, Value.number 2])])
        = .err (invalidType .seq "tuple variant")
      ∧ De.decodeFooPairEnum
            (Value.record [("Foo", Value.list [Value.number 1, Value.number 2])])
          ≠ .ok (1, 2) := by
  constructor
  · rfl
  · intro h
    rw [show De.decodeFooPairEnum
          (Value.record [("Foo", Value.list [Value.number 1, Value.number 2])])
        = .err (invalidType .seq "tuple variant") from rfl] at h
    cases h

/-- Claim C3 (amended): on the reflective externally-tagged path a positional
variant accepts only a `Tuple` payload: `Record{"Foo": Tuple[Number(1),
Number(2)]}` decodes the two-field positional variant `Foo`, the empty
`Tuple` payload decodes as unit (`visit_unit`), and a `List` payload is
rejected with an invalid-type error. -/
theorem itf_C3_tuple_variant_payloads :
    De.decodeFooPairEnum (Value.record [("Foo", Value.tuple [Value.number 1, Value.number 2])])
        = .ok (1, 2)
      ∧ (∀ (α : Type) (vis : Visitor α) (xs : List Value),
          De.tuple_variant (some (Value.list xs)) vis
            = .err (invalidType .seq "tuple variant"))
      ∧ (∀ (α : Type) (vis : Visitor α),
          De.tuple_variant (some (Value.tuple [])) vis = vis.visitUnit)
      ∧ (∀ (α : Type) (vis : Visitor α) (x : Value) (xs : List Value),
          De.tuple_variant (some (Value.tuple (x :: xs))) vis = vis.visitSeq (x :: xs)) := by
  exact ⟨rfl, fun _ _ _ => rfl, fun _ _ => rfl, fun _ _ _ _ => rfl⟩

/-- Claim C4: the claim states fixed-width decode accepts `BigInt` sources
(fits → success, else `NumericRangeError`); the code instead rejects
`BigInt` in every width-specific `deserialize_*` with an invalid-type error
(the `Error::BigInt` range-error variant is declared but never built), and
on the self-describing path `deserialize_any` runs `to_i64().unwrap()`,
which aborts the process for a `BigInt` beyond 64-bit range.  This theorem
evaluates the code at those inputs. -/
theorem itf_C4_bigint_behavior :
    De.decode_i8 (Value.bigint 5) = .err (invalidType (.other "bigint") "i8")
      ∧ De.decode_i16 (Value.bigint 5) = .err (invalidType (.other "bigint") "i16")
      ∧ De.decode_i32 (Value.bigint 5) = .err (invalidType (.other "bigint") "i32")
      ∧ De.decode_i64 (Value.bigint 5) = .err (invalidType (.other "bigint") "i64")
      ∧ De.decode_i128 (Value.bigint 5) = .err (invalidType (.other "bigint") "i128")
      ∧ De.decode_u8 (Value.bigint 5) = .err (invalidType (.other "bigint") "u8")
      ∧ De.decode_u16 (Value.bigint 5) = .err (invalidType (.other "bigint") "u16")
      ∧ De.decode_u32 (Value.bigint 5) = .err (invalidType (.other "bigint") "u32")
      ∧ De.decode_u64 (Value.bigint 5) = .err (invalidType (.other "bigint") "u64")
      ∧ De.decode_u128 (Value.bigint 5) = .err (invalidType (.other "bigint") "u128")
      ∧ (∀ p : Int, De.decode_i8 (Value.bigint 5) ≠ .ok p)
      ∧ (∀ (α : Type) (vis : Visitor α),
          De.deserialize_any vis (Value.bigint (2 ^ 64)) = .panic)
      ∧ (∀ (α : Type) (vis : Visitor α),
          De.deserialize_any vis (Value.bigint 5) = vis.visitI64 5) := by
  refine ⟨rfl, rfl, rfl, rfl, rfl, rfl, rfl, rfl, rfl, rfl, ?_, ?_, ?_⟩
  · intro p h
    rw [show De.decode_i8 (Value.bigint 5) = .err (invalidType (.other "bigint") "i8")
        from rfl] at h
    cases h
  · intro α vis
    show (if De.i64Min ≤ (2 ^ 64 : Int) ∧ (2 ^ 64 : Int) ≤ De.i64Max
        then vis.visitI64 (2 ^ 64) else .panic) = .panic
    rw [if_neg (by decide)]
  · intro α vis
    show (if De.i64Min ≤ (5 : Int) ∧ (5 : Int) ≤ De.i64Max
        then vis.visitI64 5 else .panic) = vis.visitI64 5
    rw [if_pos (by decide)]

/-- Claim C6: on the reflective externally-tagged path, enum decode accepts
only a `String` (variant name, no payload — the only form that can select a
unit variant) or a `Record` with exactly one entry (variant name and
payload); a `Record` with zero or with two-plus entries fails with the
invalid-value error "expected map with a single key", and every other
`Value` variant fails with an invalid-type error. -/
theorem itf_C6_enum_wire_shape :
    (∀ (α : Type) (vis : Visitor α),
        De.deserialize_enum vis (Value.record [])
            = .err (invalidValue .map "map with a single key")
          ∧ (∀ (k1 : String) (v1 : Value) (k2 : String) (v2 : Value)
                (rest : List (String × Value)),
              De.deserialize_enum vis (Value.record ((k1, v1) :: (k2, v2) :: rest))
                = .err (invalidValue .map "map with a single key"))
          ∧ (∀ (k : String) (v : Value),
              De.deserialize_enum vis (Value.record [(k, v)]) = vis.visitEnum k (some v))
          ∧ (∀ s : String,
              De.deserialize_enum vis (Value.string s) = vis.visitEnum s none)
          ∧ (∀ b, De.deserialize_enum vis (Value.bool b)
              = .err (invalidType (.bool b) "string or map"))
          ∧ (∀ n, De.deserialize_enum vis (Value.number n)
              = .err (invalidType (.signed n) "string or map"))
          ∧ (∀ n, De.deserialize_enum vis (Value.bigint n)
              = .err (invalidType (.other "bigint") "string or map"))
          ∧ (∀ xs, De.deserialize_enum vis (Value.list xs)
              = .err (invalidType .seq "string or map"))
          ∧ (∀ xs, De.deserialize_enum vis (Value.tuple xs)
              = .err (invalidType (.other "tuple") "string or map"))
          ∧ (∀ xs, De.deserialize_enum vis (Value.set xs)
              = .err (invalidType (.other "set") "string or map"))
          ∧ (∀ xs, De.deserialize_enum vis (Value.map xs)
              = .err (invalidType .map "string or map"))
          ∧ De.deserialize_enum vis Value.unserializable
              = .err (invalidType (.other "unserializable") "string or map"))
      ∧ De.unit_variant none = .ok () := by
  refine ⟨fun α vis => ?_, rfl⟩
  exact ⟨rfl, fun _ _ _ _ _ => rfl, fun _ _ => rfl, fun _ => rfl, fun _ => rfl,
    fun _ => rfl, fun _ => rfl, fun _ => rfl, fun _ => rfl, fun _ => rfl,
    fun _ => rfl, rfl⟩

/-- `Except.ok` feeds its value to the continuation. -/
theorem except_ok_bind {ε α β : Type} (a : α) (f : α → Except ε β) :
    (Except.ok a : Except ε α) >>= f = f a := rfl

/-- `Except.error` short-circuits a bind. -/
theorem except_error_bind {ε α β : Type} (e : ε) (f : α → Except ε β) :
    (Except.error e : Except ε α) >>= f = .error e := rfl

/-- Claim C5: the code-generated internally-tagged decoder requires a
`Record`, removes the configured tag field from it (absence is
`UnknownTag(tagFieldName)`), decodes the tag value as `String`, maps an
unmatched tag value to `UnknownVariant(tagValue)`, and hands the selected
variant's field extraction the same record with the tag entry removed —
tag and payload fields are siblings of one flat record. -/
theorem itf_C5_named_enum_decoding :
    (∀ (α : Type) (tag : String)
        (variants : List (Derive.FieldSpec
          × (List (String × Value) → Except Derive.DecodeError α))),
        (∀ b, Derive.decodeNamedEnum tag variants (Value.bool b)
            = .error (.InvalidType "record"))
        ∧ (∀ n, Derive.decodeNamedEnum tag variants (Value.number n)
            = .error (.InvalidType "record"))
        ∧ (∀ n, Derive.decodeNamedEnum tag variants (Value.bigint n)
            = .error (.InvalidType "record"))
        ∧ (∀ s, Derive.decodeNamedEnum tag variants (Value.string s)
            = .error (.InvalidType "record"))
        ∧ (∀ xs, Derive.decodeNamedEnum tag variants (Value.list xs)
            = .error (.InvalidType "record"))
        ∧ (∀ xs, Derive.decodeNamedEnum tag variants (Value.tuple xs)
            = .error (.InvalidType "record"))
        ∧ (∀ xs, Derive.decodeNamedEnum tag variants (Value.set xs)
            = .error (.InvalidType "record"))
        ∧ (∀ xs, Derive.decodeNamedEnum tag variants (Value.map xs)
            = .error (.InvalidType "record"))
        ∧ Derive.decodeNamedEnum tag variants Value.unserializable
            = .error (.InvalidType "record"))
      ∧ (∀ (α : Type) (tag : String)
          (variants : List (Derive.FieldSpec
            × (List (String × Value) → Except Derive.DecodeError α)))
          (entries : List (String × Value)),
          (Derive.removeKey tag entries).1 = none →
          Derive.decodeNamedEnum tag variants (Value.record entries)
            = .error (.UnknownTag tag))
      ∧ Derive.decodeNamedEnum "tag" namedEnumA (Value.record [("kind", Value.string "A")])
          = .error (.UnknownTag "tag")
      ∧ (∀ (α : Type) (tag : String)
          (variants : List (Derive.FieldSpec
            × (List (String × Value) → Except Derive.DecodeError α)))
          (entries rest : List (String × Value)) (z : String),
          Derive.removeKey tag entries = (some (Value.string z), rest) →
          variants.find? (fun p => Derive.resolvedName p.1 = z) = none →
          Derive.decodeNamedEnum tag variants (Value.record entries)
            = .error (.UnknownVariant z))
      ∧ Derive.decodeNamedEnum "tag" namedEnumA (Value.record [("tag", Value.string "Z")])
          = .error (.UnknownVariant "Z")
      ∧ (∀ (α : Type) (tag : String)
          (variants : List (Derive.FieldSpec
            × (List (String × Value) → Except Derive.DecodeError α)))
          (entries rest : List (String × Value)) (z : String)
          (p : Derive.FieldSpec × (List (String × Value) → Except Derive.DecodeError α)),
          Derive.removeKey tag entries = (some (Value.string z), rest) →
          variants.find? (fun q => Derive.resolvedName q.1 = z) = some p →
          Derive.decodeNamedEnum tag variants (Value.record entries) = p.2 rest)
      ∧ Derive.decodeNamedEnum "tag" namedEnumA
            (Value.record [("tag", Value.string "A"), ("x", Value.number 7)])
          = .ok [Value.number 7] := by
  refine ⟨?_, ?_, rfl, ?_, rfl, ?_, rfl⟩
  · intro α tag variants
    exact ⟨fun _ => rfl, fun _ => rfl, fun _ => rfl, fun _ => rfl, fun _ => rfl,
      fun _ => rfl, fun _ => rfl, fun _ => rfl, rfl⟩
  · intro α tag variants entries h
    rcases hrk : Derive.removeKey tag entries with ⟨tv, rest⟩
    rw [hrk] at h
    simp only at h
    subst h
    simp only [Derive.decodeNamedEnum, Derive.decodeRecordMap, except_ok_bind, hrk,
      except_error_bind]
  · intro α tag variants entries rest z h hf
    simp only [Derive.decodeNamedEnum, Derive.decodeRecordMap, except_ok_bind, h,
      Derive.decodeItfString, hf]
  · intro α tag variants entries rest z p h hf
    simp only [Derive.decodeNamedEnum, Derive.decodeRecordMap, except_ok_bind, h,
      Derive.decodeItfString, hf]

/-- Claim C5 witness: the tag-stripping pipeline instantiated at the concrete
enumeration `{ A { x } }`: a record keyed `"kind"` lacks the tag, `"Z"`
matches no variant, and with the tag present the selected variant's fields
are read from the tag-stripped record. -/
theorem itf_C5_witness :
    Derive.decodeNamedEnum "tag" namedEnumA (Value.record [("kind", Value.string "A")])
        = .error (.UnknownTag "tag")
      ∧ Derive.decodeNamedEnum "tag" namedEnumA (Value.record [("tag", Value.string "Z")])
        = .error (.UnknownVariant "Z")
      ∧ Derive.decodeNamedEnum "tag" namedEnumA
          (Value.record [("tag", Value.string "A"), ("x", Value.number 7)])
        = Derive.decodeFields [(⟨"x", none⟩, fun v => .ok v)] [("x", Value.number 7)] :=
  ⟨itf_C5_named_enum_decoding.2.1 (List Value) "tag" namedEnumA
      [("kind", Value.string "A")] rfl,
    itf_C5_named_enum_decoding.2.2.2.1 (List Value) "tag" namedEnumA
      [("tag", Value.string "Z")] [] "Z" rfl rfl,
    itf_C5_named_enum_decoding.2.2.2.2.2.1 (List Value) "tag" namedEnumA
      [("tag", Value.string "A"), ("x", Value.number 7)] [("x", Value.number 7)] "A"
      (⟨"A", none⟩, Derive.decodeFields [(⟨"x", none⟩, fun v => .ok v)])
      rfl rfl⟩

/-- Removing a key no entry carries leaves an association list unchanged. -/
theorem removeKey_of_forall_ne (k : String) (l : List (String × Value))
    (h : ∀ p ∈ l, p.1 ≠ k) : Derive.removeKey k l = (none, l) := by
  induction l with
  | nil => rfl
  | cons p rest ih =>
    obtain ⟨k', v⟩ := p
    have hne : k' ≠ k := h (k', v) (List.mem_cons_self _ _)
    simp only [Derive.removeKey, if_neg hne,
      ih fun q hq => h q (List.mem_cons_of_mem _ hq)]

/-- Appending entries whose keys differ from `k` does not change what
`removeKey k` finds, and the leftovers keep the appended tail. -/
theorem removeKey_append_of_forall_ne (k : String) (m extras : List (String × Value))
    (h : ∀ p ∈ extras, p.1 ≠ k) :
    Derive.removeKey k (m ++ extras)
      = ((Derive.removeKey k m).1, (Derive.removeKey k m).2 ++ extras) := by
  induction m with
  | nil => simp [Derive.removeKey, removeKey_of_forall_ne k extras h]
  | cons p rest ih =>
    obtain ⟨k', v⟩ := p
    by_cases hk : k' = k
    · simp [Derive.removeKey, hk]
    · simp [Derive.removeKey, hk, ih]

/-- Entries whose keys match no declared field's resolved name are invisible
to the generated field extraction. -/
theorem decodeFields_append_extras {β : Type}
    (fields : List (Derive.FieldSpec × (Value → Except Derive.DecodeError β)))
    (m extras : List (String × Value))
    (h : ∀ p ∈ extras, p.1 ∉ fields.map fun q => Derive.resolvedName q.1) :
    Derive.decodeFields fields (m ++ extras) = Derive.decodeFields fields m := by
  induction fields generalizing m with
  | nil => rfl
  | cons fd rest ih =>
    obtain ⟨f, dec⟩ := fd
    have hne : ∀ p ∈ extras, p.1 ≠ Derive.resolvedName f := by
      intro p hp
      have hnotin := h p hp
      simp only [List.map_cons, List.mem_cons, not_or] at hnotin
      exact hnotin.1
    have htail : ∀ p ∈ extras, p.1 ∉ rest.map fun q => Derive.resolvedName q.1 := by
      intro p hp
      have hnotin := h p hp
      simp only [List.map_cons, List.mem_cons, not_or] at hnotin
      exact hnotin.2
    simp only [Derive.decodeFields,
      removeKey_append_of_forall_ne (Derive.resolvedName f) m extras hne]
    rcases hrk : Derive.removeKey (Derive.resolvedName f) m with ⟨found, m'⟩
    cases found with
    | none => simp
    | some v => simp [ih m' htail]

/-- Claim C7: the generated struct decoder reads each declared field from
the key given by its rename directive when present, otherwise its declared
name; a missing required key yields `FieldNotFound` carrying that resolved
name (the empty record fails with the first declared field's resolved name,
and a field `count` renamed `"n"` ignores a source key `"count"` and fails
with `FieldNotFound("n")`); entries under unrecognized keys never change
the result. -/
theorem itf_C7_struct_field_resolution :
    (∀ n r : String,
        Derive.resolvedName ⟨n, some r⟩ = r ∧ Derive.resolvedName ⟨n, none⟩ = n)
      ∧ (∀ (β : Type) (f : Derive.FieldSpec) (d : Value → Except Derive.DecodeError β)
          (rest : List (Derive.FieldSpec × (Value → Except Derive.DecodeError β))),
          Derive.decodeFields ((f, d) :: rest) []
            = .error (.FieldNotFound (Derive.resolvedName f)))
      ∧ (∀ (β : Type) (d : Value → Except Derive.DecodeError β) (v : Value),
          Derive.decodeFields [(⟨"count", some "n"⟩, d)] [("count", v)]
            = .error (.FieldNotFound "n"))
      ∧ (∀ (β : Type)
          (fields : List (Derive.FieldSpec × (Value → Except Derive.DecodeError β)))
          (m extras : List (String × Value)),
          (∀ p ∈ extras, p.1 ∉ fields.map fun q => Derive.resolvedName q.1) →
          Derive.decodeFields fields (m ++ extras) = Derive.decodeFields fields m) := by
  refine ⟨fun n r => ⟨rfl, rfl⟩, fun β f d rest => rfl, fun β d v => rfl,
    fun β fields m extras h => decodeFields_append_extras fields m extras h⟩

/-- Claim C7 witness: one declared field `a`, a record carrying `a` plus an
unrecognized key `zzz` appended — the extra key changes nothing — and the
concrete rename/missing-key failures. -/
theorem itf_C7_witness :
    Derive.decodeFields [(⟨"a", none⟩, fun v => (.ok v : Except Derive.DecodeError Value))]
          ([("a", Value.bool true)] ++ [("zzz", Value.number 3)])
        = Derive.decodeFields [(⟨"a", none⟩, fun v => .ok v)] [("a", Value.bool true)]
      ∧ Derive.decodeFields
            [(⟨"count", some "n"⟩, fun v => (.ok v : Except Derive.DecodeError Value))]
            [("count", Value.number 4)]
        = .error (.FieldNotFound "n") :=
  ⟨itf_C7_struct_field_resolution.2.2.2 Value
      [(⟨"a", none⟩, fun v => .ok v)] [("a", Value.bool true)] [("zzz", Value.number 3)]
      (by simp [Derive.resolvedName]),
    itf_C7_struct_field_resolution.2.2.1 Value (fun v => .ok v) (Value.number 4)⟩

/-- An `ok` outcome feeds its value to the continuation. -/
theorem outcome_ok_bind {α β : Type} (a : α) (f : α → Outcome β) :
    (Outcome.ok a : Outcome α) >>= f = f a := rfl

/-- Element decoding over a list on which the element decoder succeeds
pointwise succeeds with exactly the pointwise results — one output per raw
element, in order, duplicates retained. -/
theorem decodeElems_of_forall2 {α : Type} (d : Value → Outcome α)
    (xs : List Value) (ys : List α)
    (h : List.Forall₂ (fun x y => d x = Outcome.ok y) xs ys) :
    De.decodeElems d xs = .ok ys := by
  induction h with
  | nil => rfl
  | cons hxy _ ih => simp only [De.decodeElems, hxy, outcome_ok_bind, ih]; rfl

/-- Claim C8: decoding into the set collection requires the `Set` variant
(every other variant is a type error), decodes each element independently
(pointwise success gives exactly the pointwise typed results, one per raw
element), and performs no post-decode re-deduplication: two distinct raw
elements that decode to equal typed values are both retained, as the
concrete `Set{Number(1), String("a")}` under the ignore-and-skip element
decoder shows — both decode to `()` and the output keeps both. -/
theorem itf_C8_set_no_rededup :
    (∀ (α : Type) (d : Value → Outcome α) (xs : List Value) (ys : List α),
        List.Forall₂ (fun x y => d x = Outcome.ok y) xs ys →
        De.decodeSet d (Value.set xs) = .ok ys)
      ∧ (∀ (α : Type) (d : Value → Outcome α),
          (∀ b, De.decodeSet d (Value.bool b) = .err (invalidType (.bool b) "a set"))
          ∧ (∀ n, De.decodeSet d (Value.number n) = .err (invalidType (.signed n) "a set"))
          ∧ (∀ n, De.decodeSet d (Value.bigint n)
              = .err (invalidType (.other "bigint") "a set"))
          ∧ (∀ s, De.decodeSet d (Value.string s) = .err (invalidType (.str s) "a set"))
          ∧ (∀ xs, De.decodeSet d (Value.list xs) = .err (invalidType .seq "a set"))
          ∧ (∀ xs, De.decodeSet d (Value.tuple xs)
              = .err (invalidType (.other "tuple") "a set"))
          ∧ (∀ xs, De.decodeSet d (Value.map xs) = .err (invalidType .map "a set"))
          ∧ (∀ xs, De.decodeSet d (Value.record xs)
              = .err (invalidType (.other "record") "a set"))
          ∧ De.decodeSet d Value.unserializable
              = .err (invalidType (.other "unserializable") "a set"))
      ∧ De.decodeSet De.decode_ignored (Value.set [Value.number 1, Value.string "a"])
          = .ok [(), ()] := by
  refine ⟨?_, ?_, rfl⟩
  · intro α d xs ys h
    exact decodeElems_of_forall2 d xs ys h
  · intro α d
    exact ⟨fun _ => rfl, fun _ => rfl, fun _ => rfl, fun _ => rfl, fun _ => rfl,
      fun _ => rfl, fun _ => rfl, fun _ => rfl, rfl⟩

/-- Claim C8 witness: the pointwise-success case instantiated on the raw set
`Set{Number(1), Number(2)}` decoded with the `i64` element decoder. -/
theorem itf_C8_witness :
    De.decodeSet De.decode_i64 (Value.set [Value.number 1, Value.number 2])
        = .ok [1, 2] :=
  itf_C8_set_no_rededup.1 Int De.decode_i64 [Value.number 1, Value.number 2] [1, 2]
    (List.Forall₂.cons (by decide) (List.Forall₂.cons (by decide) List.Forall₂.nil))

/-- Claim C9 counterexample: the ignore-and-skip entry point
(`deserialize_ignored_any`) succeeds on `Unserializable` — it drops the
value unseen and visits `unit` — so not every decode entry point fails on
`Unserializable`, and no `UnsupportedType` error is produced there. -/
theorem itf_C9_cex :
    De.decode_ignored Value.unserializable = .ok ()
      ∧ De.decode_ignored Value.unserializable
        ≠ .err (.UnsupportedType "unserializable") := by
  constructor
  · rfl
  · intro h
    rw [show De.decode_ignored Value.unserializable = .ok () from rfl] at h
    cases h

/-- Claim C9 (amended): decoding `Unserializable` through the
self-describing entry point `deserialize_any` fails with
`UnsupportedType("unserializable")` for every visitor; the typed entry
points (`bool`, `string`, `unit`, `seq`, `enum`) also fail, but with
invalid-type errors naming `unserializable`; the ignore-and-skip entry
point (`deserialize_ignored_any`), which consumes the value without
inspecting it, succeeds. -/
theorem itf_C9_unserializable_behavior :
    (∀ (α : Type) (vis : Visitor α),
        De.deserialize_any vis Value.unserializable
          = .err (.UnsupportedType "unserializable"))
      ∧ (∀ (α : Type) (vis : Visitor α),
          De.deserialize_bool vis Value.unserializable
            = .err (invalidType (.other "unserializable") vis.expecting))
      ∧ (∀ (α : Type) (vis : Visitor α),
          De.deserialize_string vis Value.unserializable
            = .err (invalidType (.other "unserializable") vis.expecting))
      ∧ (∀ (α : Type) (vis : Visitor α),
          De.deserialize_unit vis Value.unserializable
            = .err (invalidType (.other "unserializable") vis.expecting))
      ∧ (∀ (α : Type) (vis : Visitor α),
          De.deserialize_seq vis Value.unserializable
            = .err (invalidType (.other "unserializable") vis.expecting))
      ∧ (∀ (α : Type) (vis : Visitor α),
          De.deserialize_enum vis Value.unserializable
            = .err (invalidType (.other "unserializable") "string or map"))
      ∧ De.decode_ignored Value.unserializable = .ok () := by
  exact ⟨fun _ _ => rfl, fun _ _ => rfl, fun _ _ => rfl, fun _ _ => rfl,
    fun _ _ => rfl, fun _ _ => rfl, rfl⟩

/-- Claim C10: on the reflective externally-tagged path a unit variant given
in record form — a payload present — never decodes: the payload is decoded
as the unit type, and `deserialize_unit` rejects every `Value` variant
(including the zero-arity `Tuple`); only the bare-`String` form (no
payload) selects a unit variant. -/
theorem itf_C10_unit_variant_record_form :
    (∀ v : Value,
        De.unit_variant (some v) = .err (invalidType v.unexpected "unit"))
      ∧ De.unit_variant (some (Value.tuple []))
          = .err (invalidType (.other "tuple") "unit")
      ∧ De.unit_variant (some (Value.record []))
          = .err (invalidType (.other "record") "unit")
      ∧ De.unit_variant none = .ok () := by
  exact ⟨fun _ => rfl, rfl, rfl, rfl⟩

end Itf
